import Mathlib

/-!
Shallow embedding of the numerical core of the ERA5 → CCPP-SCM forcing
conversion tool (package `era5_to_ccpp_scm`).

Multi-dimensional numeric arrays are embedded as total functions from
natural-number indices to exact rationals, in the index order of the
source arrays (`(time, levels, latitude, longitude)` before the final
transpose).  The transcendental functions supplied by external libraries
(numpy's `sin`, `cos`, π; metpy's `potential_temperature` and
`pressure_to_height_std`) are not code of this repository; they are
abstracted as components of a `Phys` parameter structure, so every
theorem below holds for each interpretation of them (the intended one
included).
-/

/-- The external mathematical/physical primitives used by
`convert_forcing.py`: the constant π and the functions `np.sin`,
`np.cos`, metpy `potential_temperature` (as a function of pressure in Pa
and temperature in K) and metpy `pressure_to_height_std` (as a function
of pressure in hPa). -/
structure Phys where
  pi : ℚ
  sin : ℚ → ℚ
  cos : ℚ → ℚ
  theta : ℚ → ℚ → ℚ
  p2h : ℚ → ℚ

/-- `np.deg2rad`: convert degrees to radians, i.e. multiply by π/180. -/
def deg2rad (pi x : ℚ) : ℚ := x * (pi / 180)

/-- `calculate_radiative_heating` (convert_forcing.py, lines 7–32):
for each time step `t`, the heating profile is
`(swnet_top[t] - swdn_sfc[t] + lwnet_top[t] - lwdn_sfc[t]) / (pressure * temperature[t, :])`. -/
def calculate_radiative_heating (swnet_top swdn_sfc lwnet_top lwdn_sfc : ℕ → ℚ)
    (pressure : ℕ → ℚ) (temperature : ℕ → ℕ → ℚ) : ℕ → ℕ → ℚ :=
  fun t k =>
    (swnet_top t - swdn_sfc t + lwnet_top t - lwdn_sfc t) / (pressure k * temperature t k)

/-- `calculate_grid_spacing` (convert_forcing.py, lines 35–73):
`dy = R_EARTH * deg2rad(|lats[2] - lats[0]|) / 2` and
`dx = R_EARTH * cos(deg2rad(lats[center_idx])) * deg2rad(|lons[2] - lons[0]|) / 2`,
with `R_EARTH = 6371000` m.  Returns `(dx, dy)`. -/
def calculate_grid_spacing (P : Phys) (lats lons : ℕ → ℚ) (center_idx : ℕ) : ℚ × ℚ :=
  let R_EARTH : ℚ := 6371000
  let center_lat := lats center_idx
  let lat_rad := deg2rad P.pi center_lat
  let dy := R_EARTH * deg2rad P.pi |lats 2 - lats 0| / 2
  let dx := R_EARTH * P.cos lat_rad * deg2rad P.pi |lons 2 - lons 0| / 2
  (dx, dy)

/-- `calculate_horizontal_gradients` (convert_forcing.py, lines 76–105):
centered differences at the fixed middle point,
`d_dx = (var[.., lat=1, lon=2] - var[.., lat=1, lon=0]) / (2*dx)` and
`d_dy = (var[.., lat=2, lon=1] - var[.., lat=0, lon=1]) / (2*dy)`,
where `(dx, dy)` come from `calculate_grid_spacing` at `center_idx`.
The field `var` is indexed `(time, level, latitude, longitude)`. -/
def calculate_horizontal_gradients (P : Phys) (var : ℕ → ℕ → ℕ → ℕ → ℚ)
    (lats lons : ℕ → ℚ) (center_idx : ℕ) : (ℕ → ℕ → ℚ) × (ℕ → ℕ → ℚ) :=
  let s := calculate_grid_spacing P lats lons center_idx
  (fun t l => (var t l 1 2 - var t l 1 0) / (2 * s.1),
   fun t l => (var t l 2 1 - var t l 0 1) / (2 * s.2))

/-- `calculate_geostrophic_wind` (convert_forcing.py, lines 108–138):
`f = 2 * 7.2921e-5 * sin(deg2rad(lat[1]))`,
`u_g = -(1/f) * 9.81 * dz_dy`, `v_g = (1/f) * 9.81 * dz_dx`, with the
gradients from `calculate_horizontal_gradients` at the default
`center_idx = 1`. -/
def calculate_geostrophic_wind (P : Phys) (z : ℕ → ℕ → ℕ → ℕ → ℚ)
    (lat lon : ℕ → ℚ) : (ℕ → ℕ → ℚ) × (ℕ → ℕ → ℚ) :=
  let f : ℚ := 2 * (72921 / 1000000000) * P.sin (deg2rad P.pi (lat 1))
  let g := calculate_horizontal_gradients P z lat lon 1
  (fun t l => -(1 / f) * (981 / 100) * g.2 t l,
   fun t l => (1 / f) * (981 / 100) * g.1 t l)

/-- `theta_from_t` (convert_forcing.py, lines 141–146): metpy
`potential_temperature(pressure, temperature)`, abstracted in `Phys`. -/
def theta_from_t (P : Phys) (temperature pressure : ℚ) : ℚ :=
  P.theta pressure temperature

/-- `np.gradient(f, h)` along one axis of length `L` (the exact numpy
scheme: first-order one-sided differences at the two boundary points and
the second-order non-uniform central difference in the interior). -/
def npGradient (L : ℕ) (f h : ℕ → ℚ) (i : ℕ) : ℚ :=
  if i = 0 then (f 1 - f 0) / (h 1 - h 0)
  else if i = L - 1 then (f (L - 1) - f (L - 2)) / (h (L - 1) - h (L - 2))
  else
    let hs := h i - h (i - 1)
    let hd := h (i + 1) - h i
    (hs ^ 2 * f (i + 1) + (hd ^ 2 - hs ^ 2) * f i - hd ^ 2 * f (i - 1)) /
      (hs * hd * (hd + hs))

/-- `calculate_advection` (convert_forcing.py, lines 154–199).
`L` is `var.shape[1]` (the number of pressure levels).  Heights are the
standard-atmosphere heights of the pressure levels (`pressure` is in Pa,
converted to hPa before `pressure_to_height_std`), identical for every
time step; `temperature` is converted to kelvin units in the source and
then never used.  Returns `(h_advec, v_advec)` with
`h_advec = -(u * dvardx + v * dvardy)` and `v_advec = -w * dvardz`. -/
def calculate_advection (P : Phys) (L : ℕ) (var : ℕ → ℕ → ℕ → ℕ → ℚ)
    (u v w : ℕ → ℕ → ℚ) (lats lons : ℕ → ℚ) (pressure : ℕ → ℚ)
    (temperature : ℕ → ℕ → ℚ) (center_idx : ℕ) : (ℕ → ℕ → ℚ) × (ℕ → ℕ → ℚ) :=
  let grads := calculate_horizontal_gradients P var lats lons center_idx
  let heights : ℕ → ℕ → ℚ := fun _t l => P.p2h (pressure l / 100)
  let dvardz : ℕ → ℕ → ℚ := fun t l =>
    npGradient L (fun k => var t k center_idx center_idx) (heights t) l
  (fun t l => -(u t l * grads.1 t l + v t l * grads.2 t l),
   fun t l => -(w t l * dvardz t l))

/-- The merged ERA5 input dataset reaching `era5_to_scm_forcing`:
4-D variables indexed `(time, levels, latitude, longitude)`, surface
variables indexed `(time, latitude, longitude)`, coordinate arrays
`levels` (hPa), `latitude`, `longitude` (degrees), and the array extent
`nLevels` (`ds.levels` size, used for the vertical `np.gradient`). -/
structure ERA5DS where
  nLevels : ℕ
  z : ℕ → ℕ → ℕ → ℕ → ℚ
  t : ℕ → ℕ → ℕ → ℕ → ℚ
  u : ℕ → ℕ → ℕ → ℕ → ℚ
  v : ℕ → ℕ → ℕ → ℕ → ℚ
  w : ℕ → ℕ → ℕ → ℕ → ℚ
  q : ℕ → ℕ → ℕ → ℕ → ℚ
  sp : ℕ → ℕ → ℕ → ℚ
  t2m : ℕ → ℕ → ℕ → ℚ
  tsr : ℕ → ℕ → ℕ → ℚ
  ssr : ℕ → ℕ → ℕ → ℚ
  ttr : ℕ → ℕ → ℕ → ℚ
  str : ℕ → ℕ → ℕ → ℚ
  levels : ℕ → ℚ
  latitude : ℕ → ℚ
  longitude : ℕ → ℚ

/-- The output forcing dataset.  The 2-D variables of the returned
dataset are indexed `(levels, time)` (the source's final
`out.transpose('levels', 'time')`); `p_surf`/`T_surf` are indexed by
time only, and `levels` is the coordinate in Pa. -/
structure SCMForcing where
  levels : ℕ → ℚ
  w_ls : ℕ → ℕ → ℚ
  omega : ℕ → ℕ → ℚ
  u_nudge : ℕ → ℕ → ℚ
  v_nudge : ℕ → ℕ → ℚ
  T_nudge : ℕ → ℕ → ℚ
  thil_nudge : ℕ → ℕ → ℚ
  qt_nudge : ℕ → ℕ → ℚ
  u_g : ℕ → ℕ → ℚ
  v_g : ℕ → ℕ → ℚ
  h_advec_thetail : ℕ → ℕ → ℚ
  v_advec_thetail : ℕ → ℕ → ℚ
  h_advec_qt : ℕ → ℕ → ℚ
  v_advec_qt : ℕ → ℕ → ℚ
  dT_dt_rad : ℕ → ℕ → ℚ
  p_surf : ℕ → ℚ
  T_surf : ℕ → ℚ

/-- The body of `era5_to_scm_forcing` (convert_forcing.py, lines
202–300) *before* the final `out.transpose('levels', 'time')`: every
2-D variable is still indexed `(time, levels)`.

Notes kept faithful to the source:
* `pressure_levels = ds.levels * 100` (hPa → Pa);
* both advection calls receive the center-point winds and temperature
  and `center_idx = 1`; the q-advection result `adv_q` is computed and
  then never assigned to any output slot (lines 248–251 assign the
  theta results to the `qt` slots as well);
* `w_ls` uses the inline density `rho = sp / (287.0 * t)` of line 233;
* `thil_nudge` (line 242–243) stores `theta_from_t(...).values.T` under
  dims `('time', 'levels')`, so the value seen at `(time=a, levels=b)`
  is the potential temperature computed at time index `b`, level index
  `a`. -/
def era5_assemble (P : Phys) (ds : ERA5DS) : SCMForcing :=
  let pressure_levels : ℕ → ℚ := fun l => ds.levels l * 100
  let gw := calculate_geostrophic_wind P ds.z ds.latitude ds.longitude
  let thetaField : ℕ → ℕ → ℕ → ℕ → ℚ := fun t l i j =>
    theta_from_t P (ds.t t l i j) (pressure_levels l)
  let adv_theta := calculate_advection P ds.nLevels thetaField
    (fun a b => ds.u a b 1 1) (fun a b => ds.v a b 1 1) (fun a b => ds.w a b 1 1)
    ds.latitude ds.longitude pressure_levels (fun a b => ds.t a b 1 1) 1
  let _adv_q := calculate_advection P ds.nLevels ds.q
    (fun a b => ds.u a b 1 1) (fun a b => ds.v a b 1 1) (fun a b => ds.w a b 1 1)
    ds.latitude ds.longitude pressure_levels (fun a b => ds.t a b 1 1) 1
  { levels := pressure_levels
    w_ls := fun a b =>
      -(ds.w a b 1 1) / (ds.sp a 1 1 / (287 * ds.t a b 1 1) * (981 / 100))
    omega := fun a b => ds.w a b 1 1
    u_nudge := fun a b => ds.u a b 1 1
    v_nudge := fun a b => ds.v a b 1 1
    T_nudge := fun a b => ds.t a b 1 1
    thil_nudge := fun a b => theta_from_t P (ds.t b a 1 1) (pressure_levels a)
    qt_nudge := fun a b => ds.q a b 1 1
    u_g := gw.1
    v_g := gw.2
    h_advec_thetail := adv_theta.1
    v_advec_thetail := adv_theta.2
    h_advec_qt := adv_theta.1
    v_advec_qt := adv_theta.2
    dT_dt_rad := calculate_radiative_heating
      (fun a => ds.tsr a 1 1) (fun a => ds.ssr a 1 1)
      (fun a => ds.ttr a 1 1) (fun a => ds.str a 1 1)
      pressure_levels (fun a b => ds.t a b 1 1)
    p_surf := fun a => ds.sp a 1 1
    T_surf := fun a => ds.t2m a 1 1 }

/-- `out.transpose('levels', 'time')` (convert_forcing.py, line 302):
every 2-D variable is reindexed so `levels` is the leading axis and
`time` the trailing one; coordinates and 1-D variables are unchanged. -/
def transposeOut (o : SCMForcing) : SCMForcing :=
  { o with
    w_ls := fun l t => o.w_ls t l
    omega := fun l t => o.omega t l
    u_nudge := fun l t => o.u_nudge t l
    v_nudge := fun l t => o.v_nudge t l
    T_nudge := fun l t => o.T_nudge t l
    thil_nudge := fun l t => o.thil_nudge t l
    qt_nudge := fun l t => o.qt_nudge t l
    u_g := fun l t => o.u_g t l
    v_g := fun l t => o.v_g t l
    h_advec_thetail := fun l t => o.h_advec_thetail t l
    v_advec_thetail := fun l t => o.v_advec_thetail t l
    h_advec_qt := fun l t => o.h_advec_qt t l
    v_advec_qt := fun l t => o.v_advec_qt t l
    dT_dt_rad := fun l t => o.dT_dt_rad t l }

/-- `era5_to_scm_forcing` (convert_forcing.py, lines 202–302). -/
def era5_to_scm_forcing (P : Phys) (ds : ERA5DS) : SCMForcing :=
  transposeOut (era5_assemble P ds)

/-- The Python exceptions that the modelled fragment can raise:
`ValueError` from `_maybe_open`, and an I/O error escaping from
`Dataset.to_netcdf`. -/
inductive PyError where
  | valueError
  | ioError
deriving DecidableEq

/-- The runtime type of an argument handed to `_maybe_open`: a `str`
path, an already-open `xr.Dataset` (of the caller's dataset type `D`),
or a value of any other type. -/
inductive FileArg (D : Type) where
  | str (s : String)
  | dataset (d : D)
  | other

/-- `_maybe_open` (util.py, lines 3–9), with `xr.open_dataset`
abstracted as `open_ds`: a `str` is opened, a dataset is returned
unchanged, anything else raises `ValueError`. -/
def maybe_open {D : Type} (open_ds : String → D) : FileArg D → Except PyError D
  | .str s => .ok (open_ds s)
  | .dataset d => .ok d
  | .other => .error .valueError

/-- Outcome of a `Dataset.to_netcdf` call: either it completes, or it
raises an I/O error. -/
inductive WriteOutcome where
  | ok
  | ioError
deriving DecidableEq

/-- `convert_forcings` (cli.py, lines 57–78).  `RawDS` is the type of a
raw (pre-merge) dataset; `open_ds`, `merge` (for `xr.merge`), `rename`
(for the `valid_time`/`pressure_level` renaming), `path_exists` (for
`os.path.exists`) and `to_netcdf` (taking the dataset, the path, the
mode string and the group name) abstract the external library calls.
The two file arguments go through `_maybe_open`; the merged, renamed
dataset goes through `era5_to_scm_forcing`; when an output path is
given the result is written to group `"forcing"` with mode `"a"` if the
path exists and `"w"` otherwise, and an error raised by the write
propagates (there is no handler in the source). -/
def convert_forcings {RawDS : Type} (P : Phys)
    (open_ds : String → RawDS) (merge : RawDS → RawDS → RawDS)
    (rename : RawDS → ERA5DS) (path_exists : String → Bool)
    (to_netcdf : SCMForcing → String → String → String → WriteOutcome)
    (era5_surface_file era5_pressure_levels_file : FileArg RawDS)
    (output_file : Option String) : Except PyError SCMForcing :=
  match maybe_open open_ds era5_surface_file with
  | .error e => .error e
  | .ok ds1 =>
    match maybe_open open_ds era5_pressure_levels_file with
    | .error e => .error e
    | .ok ds2 =>
      let ds := rename (merge ds1 ds2)
      let out := era5_to_scm_forcing P ds
      match output_file with
      | none => .ok out
      | some p =>
        match to_netcdf out p (if path_exists p then "a" else "w") "forcing" with
        | .ok => .ok out
        | .ioError => .error .ioError

/-! ### Concrete instances used to evaluate the theorems on inputs -/

/-- A concrete interpretation of the external primitives (π as 3, sine
constantly 1/2, cosine constantly 1, simple algebraic stand-ins for the
metpy functions). -/
def PhysTest : Phys :=
  { pi := 3
    sin := fun _ => 1 / 2
    cos := fun _ => 1
    theta := fun p T => T + p
    p2h := fun p => 44330 - 11 * p }

/-- A constant 2-D array. -/
def const2 (a : ℚ) : ℕ → ℕ → ℚ := fun _ _ => a

/-- A constant 4-D array. -/
def const4 (a : ℚ) : ℕ → ℕ → ℕ → ℕ → ℚ := fun _ _ _ _ => a

/-- A 4-D field that varies only with the longitude index. -/
def zLonField : ℕ → ℕ → ℕ → ℕ → ℚ := fun _ _ _ j => (j : ℚ)

/-- A 4-D field that varies only with the latitude index. -/
def zLatField : ℕ → ℕ → ℕ → ℕ → ℚ := fun _ _ i _ => (i : ℚ)

/-- Test latitudes 40, 41, 42. -/
def latsW : ℕ → ℚ := fun i => 40 + (i : ℚ)

/-- Test longitudes 10, 11, 12. -/
def lonsW : ℕ → ℚ := fun i => 10 + (i : ℚ)

/-- The index as a rational (used as a coordinate or pressure array). -/
def natQ : ℕ → ℚ := fun i => (i : ℚ)

/-- A concrete input dataset (3 levels, simple fields). -/
def dsZero : ERA5DS :=
  { nLevels := 3
    z := zLonField
    t := const4 250
    u := const4 5
    v := const4 (-5)
    w := const4 1
    q := const4 (1 / 100)
    sp := fun _ _ _ => 100000
    t2m := fun _ _ _ => 280
    tsr := fun _ _ _ => 100
    ssr := fun _ _ _ => 80
    ttr := fun _ _ _ => -60
    str := fun _ _ _ => -40
    levels := fun l => 1000 - 50 * (l : ℚ)
    latitude := latsW
    longitude := lonsW }

/-- `xr.open_dataset` stand-in returning `dsZero` for every path. -/
def openZero : String → ERA5DS := fun _ => dsZero

/-- `xr.merge` stand-in keeping the first collection. -/
def mergeFst : ERA5DS → ERA5DS → ERA5DS := fun a _ => a

/-- Identity renaming stand-in. -/
def renameId : ERA5DS → ERA5DS := fun d => d

/-- `os.path.exists` stand-in: every path exists. -/
def existsTrue : String → Bool := fun _ => true

/-- A `to_netcdf` stand-in that always raises an I/O error. -/
def writeFail : SCMForcing → String → String → String → WriteOutcome :=
  fun _ _ _ _ => .ioError

/-- A `to_netcdf` stand-in that always completes. -/
def writeOk : SCMForcing → String → String → String → WriteOutcome :=
  fun _ _ _ _ => .ok

/-! ### Theorems -/

/-- Helper: `np.gradient` of a constant array is identically zero,
whatever the coordinate array and the array length. -/
theorem npGradient_const (L : ℕ) (h : ℕ → ℚ) (K : ℚ) (i : ℕ) :
    npGradient L (fun _ => K) h i = 0 := by
  unfold npGradient
  split
  · simp
  · split
    · simp
    · rw [div_eq_zero_iff]
      left
      ring

/-- C7: `calculate_radiative_heating` returns, at time `t` and level
`k`, `(swnet_top[t] - swdn_sfc[t] + lwnet_top[t] - lwdn_sfc[t]) /
(pressure[k] * temperature[t, k])`; the flux difference in the
numerator does not depend on the level `k`, so the same scalar is used
at every level of a time step. -/
theorem calculate_radiative_heating_spec (swnet_top swdn_sfc lwnet_top lwdn_sfc : ℕ → ℚ)
    (pressure : ℕ → ℚ) (temperature : ℕ → ℕ → ℚ) (t k : ℕ) :
    calculate_radiative_heating swnet_top swdn_sfc lwnet_top lwdn_sfc pressure temperature t k =
      (swnet_top t - swdn_sfc t + lwnet_top t - lwdn_sfc t) /
        (pressure k * temperature t k) := rfl

/-- C9: `_maybe_open` opens a string argument, returns a dataset
argument unchanged, and raises `ValueError` on an argument of any other
type. -/
theorem maybe_open_spec {D : Type} (open_ds : String → D) (s : String) (d : D) :
    maybe_open open_ds (FileArg.str s) = Except.ok (open_ds s) ∧
    maybe_open open_ds (FileArg.dataset d) = Except.ok d ∧
    maybe_open open_ds (FileArg.other : FileArg D) = Except.error PyError.valueError :=
  ⟨rfl, rfl, rfl⟩

/-- C10: for every `center_idx`, `calculate_horizontal_gradients`
differences the fixed stencil (longitude indices 2 and 0 at latitude
index 1, and latitude indices 2 and 0 at longitude index 1), while the
grid spacing it divides by takes the cosine of the latitude at index
`center_idx`. -/
theorem calculate_horizontal_gradients_center_idx_spec (P : Phys)
    (var : ℕ → ℕ → ℕ → ℕ → ℚ) (lats lons : ℕ → ℚ) (c t l : ℕ) :
    (calculate_horizontal_gradients P var lats lons c).1 t l =
      (var t l 1 2 - var t l 1 0) / (2 * (calculate_grid_spacing P lats lons c).1) ∧
    (calculate_horizontal_gradients P var lats lons c).2 t l =
      (var t l 2 1 - var t l 0 1) / (2 * (calculate_grid_spacing P lats lons c).2) ∧
    (calculate_grid_spacing P lats lons c).1 =
      6371000 * P.cos (deg2rad P.pi (lats c)) * deg2rad P.pi |lons 2 - lons 0| / 2 ∧
    (calculate_grid_spacing P lats lons c).2 =
      6371000 * deg2rad P.pi |lats 2 - lats 0| / 2 :=
  ⟨rfl, rfl, rfl, rfl⟩

/-- C1: `era5_to_scm_forcing` stores the potential-temperature
advection in the `qt` slots as well: `h_advec_qt`/`v_advec_qt` equal
`h_advec_thetail`/`v_advec_thetail` element for element, and the
advection computed from the humidity field `q` is discarded (replacing
`q` leaves `h_advec_qt` and `v_advec_qt` unchanged). -/
theorem era5_to_scm_forcing_qt_is_theta (P : Phys) (ds : ERA5DS) :
    (∀ l t,
      (era5_to_scm_forcing P ds).h_advec_qt l t =
        (era5_to_scm_forcing P ds).h_advec_thetail l t ∧
      (era5_to_scm_forcing P ds).v_advec_qt l t =
        (era5_to_scm_forcing P ds).v_advec_thetail l t) ∧
    (∀ q' : ℕ → ℕ → ℕ → ℕ → ℚ,
      (era5_to_scm_forcing P { ds with q := q' }).h_advec_qt =
        (era5_to_scm_forcing P ds).h_advec_qt ∧
      (era5_to_scm_forcing P { ds with q := q' }).v_advec_qt =
        (era5_to_scm_forcing P ds).v_advec_qt) :=
  ⟨fun _ _ => ⟨rfl, rfl⟩, fun _ => ⟨rfl, rfl⟩⟩

/-- C8: the output levels coordinate is the input levels multiplied by
100 (hPa → Pa), and every two-dimensional output variable is indexed
`(levels, time)`: the entry at level `l`, time `t` is the entry at time
`t`, level `l` of the pre-transpose assembly, and in particular the
nudging variables reproduce the center-point input values transposed. -/
theorem era5_to_scm_forcing_axes_spec (P : Phys) (ds : ERA5DS) :
    ((era5_to_scm_forcing P ds).levels = fun l => ds.levels l * 100) ∧
    (∀ l t,
      (era5_to_scm_forcing P ds).w_ls l t = (era5_assemble P ds).w_ls t l ∧
      (era5_to_scm_forcing P ds).omega l t = (era5_assemble P ds).omega t l ∧
      (era5_to_scm_forcing P ds).u_nudge l t = (era5_assemble P ds).u_nudge t l ∧
      (era5_to_scm_forcing P ds).v_nudge l t = (era5_assemble P ds).v_nudge t l ∧
      (era5_to_scm_forcing P ds).T_nudge l t = (era5_assemble P ds).T_nudge t l ∧
      (era5_to_scm_forcing P ds).thil_nudge l t = (era5_assemble P ds).thil_nudge t l ∧
      (era5_to_scm_forcing P ds).qt_nudge l t = (era5_assemble P ds).qt_nudge t l ∧
      (era5_to_scm_forcing P ds).u_g l t = (era5_assemble P ds).u_g t l ∧
      (era5_to_scm_forcing P ds).v_g l t = (era5_assemble P ds).v_g t l ∧
      (era5_to_scm_forcing P ds).h_advec_thetail l t =
        (era5_assemble P ds).h_advec_thetail t l ∧
      (era5_to_scm_forcing P ds).v_advec_thetail l t =
        (era5_assemble P ds).v_advec_thetail t l ∧
      (era5_to_scm_forcing P ds).h_advec_qt l t = (era5_assemble P ds).h_advec_qt t l ∧
      (era5_to_scm_forcing P ds).v_advec_qt l t = (era5_assemble P ds).v_advec_qt t l ∧
      (era5_to_scm_forcing P ds).dT_dt_rad l t = (era5_assemble P ds).dT_dt_rad t l) ∧
    (∀ l t,
      (era5_to_scm_forcing P ds).omega l t = ds.w t l 1 1 ∧
      (era5_to_scm_forcing P ds).u_nudge l t = ds.u t l 1 1 ∧
      (era5_to_scm_forcing P ds).v_nudge l t = ds.v t l 1 1 ∧
      (era5_to_scm_forcing P ds).T_nudge l t = ds.t t l 1 1 ∧
      (era5_to_scm_forcing P ds).qt_nudge l t = ds.q t l 1 1 ∧
      (era5_to_scm_forcing P ds).dT_dt_rad l t =
        calculate_radiative_heating (fun a => ds.tsr a 1 1) (fun a => ds.ssr a 1 1)
          (fun a => ds.ttr a 1 1) (fun a => ds.str a 1 1)
          (fun k => ds.levels k * 100) (fun a b => ds.t a b 1 1) t l ∧
      (era5_to_scm_forcing P ds).p_surf t = ds.sp t 1 1 ∧
      (era5_to_scm_forcing P ds).T_surf t = ds.t2m t 1 1) :=
  ⟨rfl,
   fun _ _ => ⟨rfl, rfl, rfl, rfl, rfl, rfl, rfl, rfl, rfl, rfl, rfl, rfl, rfl, rfl⟩,
   fun _ _ => ⟨rfl, rfl, rfl, rfl, rfl, rfl, rfl, rfl⟩⟩

/-- C4: advection of a field that is constant in space and time is zero,
horizontally and vertically, for arbitrary winds, grids, pressure
profiles, temperatures and center index. -/
theorem calculate_advection_const_zero (P : Phys) (L : ℕ)
    (var : ℕ → ℕ → ℕ → ℕ → ℚ) (u v w : ℕ → ℕ → ℚ)
    (lats lons pressure : ℕ → ℚ) (temperature : ℕ → ℕ → ℚ)
    (cidx : ℕ) (K : ℚ) (hL : 2 ≤ L)
    (hvar : ∀ t l i j, var t l i j = K) :
    ∀ t l,
      (calculate_advection P L var u v w lats lons pressure temperature cidx).1 t l = 0 ∧
      (calculate_advection P L var u v w lats lons pressure temperature cidx).2 t l = 0 := by
  intro t l
  constructor
  · simp [calculate_advection, calculate_horizontal_gradients, hvar]
  · simp [calculate_advection, hvar, npGradient_const]

/-- Evaluation of C4 at a concrete input: the constant field 7 on a
3-level grid with nonzero winds has zero advection. -/
theorem calculate_advection_const_zero_witness :
    (calculate_advection PhysTest 3 (const4 7) (const2 2) (const2 3) (const2 4)
      latsW lonsW natQ (const2 300) 1).1 0 1 = 0 ∧
    (calculate_advection PhysTest 3 (const4 7) (const2 2) (const2 3) (const2 4)
      latsW lonsW natQ (const2 300) 1).2 0 1 = 0 :=
  calculate_advection_const_zero PhysTest 3 (const4 7) (const2 2) (const2 3) (const2 4)
    latsW lonsW natQ (const2 300) 1 7 (by norm_num) (fun _ _ _ _ => rfl) 0 1

/-- C5: `calculate_grid_spacing` returns
`dx = 6371000 * cos(center lat in radians) * deg2rad(|lons[2]-lons[0]|) / 2`
and `dy = 6371000 * deg2rad(|lats[2]-lats[0]|) / 2`; in particular for
`lats = [-1, 0, 1]` (equator at the center) and `lons = [M-1, M, M+1]`,
assuming `cos 0 = 1`, both spacings equal `6371000 * π / 180`. -/
theorem calculate_grid_spacing_spec (P : Phys) (lats lons : ℕ → ℚ) (c : ℕ)
    (M : ℚ) (hcos : P.cos 0 = 1) :
    calculate_grid_spacing P lats lons c =
      (6371000 * P.cos (deg2rad P.pi (lats c)) * deg2rad P.pi |lons 2 - lons 0| / 2,
       6371000 * deg2rad P.pi |lats 2 - lats 0| / 2) ∧
    calculate_grid_spacing P (fun i => (i : ℚ) - 1) (fun i => M + ((i : ℚ) - 1)) 1 =
      (6371000 * P.pi / 180, 6371000 * P.pi / 180) := by
  refine ⟨rfl, ?_⟩
  simp only [calculate_grid_spacing, deg2rad]
  norm_num [hcos]
  ring

/-- Evaluation of C5 at a concrete input: with the test interpretation
(π = 3, cos ≡ 1) and `M = 5`, both spacings come out as
`6371000 * 3 / 180`. -/
theorem calculate_grid_spacing_spec_witness :
    PhysTest.cos 0 = 1 ∧
    calculate_grid_spacing PhysTest (fun i => (i : ℚ) - 1) (fun i => 5 + ((i : ℚ) - 1)) 1 =
      (6371000 * PhysTest.pi / 180, 6371000 * PhysTest.pi / 180) :=
  ⟨rfl,
   (calculate_grid_spacing_spec PhysTest (fun i => (i : ℚ) - 1)
     (fun i => 5 + ((i : ℚ) - 1)) 1 5 rfl).2⟩

/-- C6: `calculate_horizontal_gradients` forms `(east - west)/(2*dx)`
and `(north - south)/(2*dy)` with the spacing from
`calculate_grid_spacing`; consequently both gradients of a field that
has the same value at all nine grid points vanish. -/
theorem calculate_horizontal_gradients_spec (P : Phys)
    (var : ℕ → ℕ → ℕ → ℕ → ℚ) (lats lons : ℕ → ℚ) (c : ℕ) (K : ℚ) (t l : ℕ) :
    ((calculate_horizontal_gradients P var lats lons c).1 t l =
        (var t l 1 2 - var t l 1 0) / (2 * (calculate_grid_spacing P lats lons c).1) ∧
      (calculate_horizontal_gradients P var lats lons c).2 t l =
        (var t l 2 1 - var t l 0 1) / (2 * (calculate_grid_spacing P lats lons c).2)) ∧
    ((∀ i j, i < 3 → j < 3 → var t l i j = K) →
      (calculate_horizontal_gradients P var lats lons c).1 t l = 0 ∧
      (calculate_horizontal_gradients P var lats lons c).2 t l = 0) := by
  refine ⟨⟨rfl, rfl⟩, fun h => ?_⟩
  have h12 := h 1 2 (by norm_num) (by norm_num)
  have h10 := h 1 0 (by norm_num) (by norm_num)
  have h21 := h 2 1 (by norm_num) (by norm_num)
  have h01 := h 0 1 (by norm_num) (by norm_num)
  constructor <;> simp [calculate_horizontal_gradients, h12, h10, h21, h01]

/-- Evaluation of C6 at a concrete input: the constant field 7 has zero
horizontal gradients on the test grid. -/
theorem calculate_horizontal_gradients_spec_witness :
    (calculate_horizontal_gradients PhysTest (const4 7) latsW lonsW 1).1 0 0 = 0 ∧
    (calculate_horizontal_gradients PhysTest (const4 7) latsW lonsW 1).2 0 0 = 0 :=
  (calculate_horizontal_gradients_spec PhysTest (const4 7) latsW lonsW 1 7 0 0).2
    (fun _ _ _ _ => rfl)

/-- C3: `calculate_geostrophic_wind` returns
`u_g = -(1/f) * 9.81 * dz_dy` and `v_g = (1/f) * 9.81 * dz_dx` with
`f = 2 * 7.2921e-5 * sin(deg2rad(lats[1]))` and the centered-difference
gradients; when the sine of the center latitude is nonzero, a height
field with zero meridional difference and nonzero zonal difference (on a
grid with nonzero spacing) gives `u_g = 0` and `v_g ≠ 0`, and vice
versa. -/
theorem calculate_geostrophic_wind_spec (P : Phys) (z : ℕ → ℕ → ℕ → ℕ → ℚ)
    (lats lons : ℕ → ℚ)
    (hsin : P.sin (deg2rad P.pi (lats 1)) ≠ 0) :
    (∀ t l,
      (calculate_geostrophic_wind P z lats lons).1 t l =
        -(1 / (2 * (72921 / 1000000000) * P.sin (deg2rad P.pi (lats 1)))) * (981 / 100) *
          (calculate_horizontal_gradients P z lats lons 1).2 t l ∧
      (calculate_geostrophic_wind P z lats lons).2 t l =
        (1 / (2 * (72921 / 1000000000) * P.sin (deg2rad P.pi (lats 1)))) * (981 / 100) *
          (calculate_horizontal_gradients P z lats lons 1).1 t l) ∧
    (∀ t l, z t l 2 1 = z t l 0 1 → z t l 1 2 ≠ z t l 1 0 →
      (calculate_grid_spacing P lats lons 1).1 ≠ 0 →
      (calculate_geostrophic_wind P z lats lons).1 t l = 0 ∧
      (calculate_geostrophic_wind P z lats lons).2 t l ≠ 0) ∧
    (∀ t l, z t l 1 2 = z t l 1 0 → z t l 2 1 ≠ z t l 0 1 →
      (calculate_grid_spacing P lats lons 1).2 ≠ 0 →
      (calculate_geostrophic_wind P z lats lons).2 t l = 0 ∧
      (calculate_geostrophic_wind P z lats lons).1 t l ≠ 0) := by
  have hf : (2 * ((72921 : ℚ) / 1000000000) * P.sin (deg2rad P.pi (lats 1))) ≠ 0 :=
    mul_ne_zero (by norm_num) hsin
  refine ⟨fun t l => ⟨rfl, rfl⟩,
    fun t l h1 h2 hdx => ⟨?_, ?_⟩, fun t l h1 h2 hdy => ⟨?_, ?_⟩⟩
  · simp [calculate_geostrophic_wind, calculate_horizontal_gradients, h1]
  · simp only [calculate_geostrophic_wind, calculate_horizontal_gradients]
    exact mul_ne_zero (mul_ne_zero (one_div_ne_zero hf) (by norm_num))
      (div_ne_zero (sub_ne_zero.mpr h2) (mul_ne_zero two_ne_zero hdx))
  · simp [calculate_geostrophic_wind, calculate_horizontal_gradients, h1]
  · simp only [calculate_geostrophic_wind, calculate_horizontal_gradients]
    exact mul_ne_zero (mul_ne_zero (neg_ne_zero.mpr (one_div_ne_zero hf)) (by norm_num))
      (div_ne_zero (sub_ne_zero.mpr h2) (mul_ne_zero two_ne_zero hdy))

/-- Evaluation of C3 at a concrete input: a height field varying only
with longitude gives zero `u_g` and nonzero `v_g` on the test grid. -/
theorem calculate_geostrophic_wind_spec_witness :
    (calculate_geostrophic_wind PhysTest zLonField latsW lonsW).1 0 0 = 0 ∧
    (calculate_geostrophic_wind PhysTest zLonField latsW lonsW).2 0 0 ≠ 0 :=
  (calculate_geostrophic_wind_spec PhysTest zLonField latsW lonsW
      (by norm_num [PhysTest])).2.1 0 0
    rfl (by norm_num [zLonField])
    (by norm_num [calculate_grid_spacing, deg2rad, PhysTest, latsW, lonsW])

/-- C2 counterexample: with a destination path given and a persistence
step that raises an I/O error, `convert_forcings` propagates the error;
the in-memory result dataset is *not* returned, contradicting the claim
that it is returned regardless of whether persistence succeeds. -/
theorem convert_forcings_failing_write_cex :
    convert_forcings PhysTest openZero mergeFst renameId existsTrue writeFail
        (FileArg.dataset dsZero) (FileArg.dataset dsZero) (some "out.nc") =
      Except.error PyError.ioError ∧
    convert_forcings PhysTest openZero mergeFst renameId existsTrue writeFail
        (FileArg.dataset dsZero) (FileArg.dataset dsZero) (some "out.nc") ≠
      Except.ok (era5_to_scm_forcing PhysTest (renameId (mergeFst dsZero dsZero))) :=
  ⟨rfl, fun h => Except.noConfusion h⟩

/-- C2 (amended): once both inputs open successfully, `convert_forcings`
returns the in-memory result when no destination path is given (writing
nothing); with a destination path `p` it writes the result to group
`"forcing"` of `p` with mode `"a"` if a file exists at `p` and `"w"`
otherwise, returning the in-memory result if that write completes and
propagating the error if the write raises. -/
theorem convert_forcings_spec {RawDS : Type} (P : Phys)
    (open_ds : String → RawDS) (merge : RawDS → RawDS → RawDS)
    (rename : RawDS → ERA5DS) (path_exists : String → Bool)
    (to_netcdf : SCMForcing → String → String → String → WriteOutcome)
    (f1 f2 : FileArg RawDS) (d1 d2 : RawDS)
    (h1 : maybe_open open_ds f1 = Except.ok d1)
    (h2 : maybe_open open_ds f2 = Except.ok d2) :
    (convert_forcings P open_ds merge rename path_exists to_netcdf f1 f2 none =
      Except.ok (era5_to_scm_forcing P (rename (merge d1 d2)))) ∧
    (∀ p : String,
      convert_forcings P open_ds merge rename path_exists to_netcdf f1 f2 (some p) =
        match to_netcdf (era5_to_scm_forcing P (rename (merge d1 d2))) p
            (if path_exists p then "a" else "w") "forcing" with
        | WriteOutcome.ok => Except.ok (era5_to_scm_forcing P (rename (merge d1 d2)))
        | WriteOutcome.ioError => Except.error PyError.ioError) := by
  constructor
  · simp [convert_forcings, h1, h2]
  · intro p
    simp [convert_forcings, h1, h2]

/-- Evaluation of C2 (amended) at a concrete input: with a persistence
step that completes, the in-memory result is returned. -/
theorem convert_forcings_spec_witness :
    convert_forcings PhysTest openZero mergeFst renameId existsTrue writeOk
        (FileArg.dataset dsZero) (FileArg.dataset dsZero) (some "out.nc") =
      Except.ok (era5_to_scm_forcing PhysTest (renameId (mergeFst dsZero dsZero))) := by
  have h := (convert_forcings_spec PhysTest openZero mergeFst renameId existsTrue writeOk
      (FileArg.dataset dsZero) (FileArg.dataset dsZero) dsZero dsZero rfl rfl).2 "out.nc"
  simpa [writeOk] using h
